import Mathlib

/-
Verification of the expert_adviser backtest engines.

Shallow embedding of the four Python variants:
  Main    - src/main.py        (fixed-risk QuantTradingBot)
  Revised - src/main_revised.py (refactored fixed-risk QuantTradingBot)
  Main2   - src/main2.py       (no-stop-loss QuantTradingBot)
  Main3   - src/main3.py       (volatility-adaptive AdaptiveTradingBot)

Prices are rationals.  A pandas NaN is modelled as Option.none; comparisons
against a possibly-NaN value follow the IEEE rule that any comparison with
NaN is false.  The wall-clock datetime.now() recorded on each trade is
modelled as an external clock oracle passed to the run.  The KMeans output
of dynamic_rsi_threshold in main3 (an external seeded sklearn call over the
RSI history, computed once before stepping) is modelled by the oversold and
overbought parameters of Main3.run.
-/

set_option maxRecDepth 100000

/-- Close price at row index i; the engines only access in-range indices. -/
def px (closes : List ℚ) (i : ℕ) : ℚ := closes.getD i 0

/-- Simple moving average over window w, pandas rolling(w).mean() semantics:
defined exactly when the window of w rows is fully inside the series. -/
def sma (closes : List ℚ) (w i : ℕ) : Option ℚ :=
  if w ≤ i + 1 ∧ i < closes.length then
    some ((((closes.drop (i + 1 - w)).take w).sum) / (w : ℚ))
  else none

/-- Difference series Close.diff(): NaN at row 0 and out of range. -/
def delta (closes : List ℚ) (i : ℕ) : Option ℚ :=
  if 1 ≤ i ∧ i < closes.length then some (px closes i - px closes (i - 1)) else none

/-- Positive part of the difference series, delta.where(delta gt 0, 0):
pandas where keeps a value only when the condition holds, and the NaN at
row 0 fails the comparison, so row 0 is replaced by 0 and the gain series
is defined at every in-range row. -/
def gainS (closes : List ℚ) (i : ℕ) : Option ℚ :=
  if i < closes.length then
    some (match delta closes i with
          | some d => max d 0
          | none => 0)
  else none

/-- Negative part of the difference series, -delta.where(delta lt 0, 0):
as for the gains, the NaN diff at row 0 fails the comparison and is
replaced by 0, so the loss series is defined at every in-range row. -/
def lossS (closes : List ℚ) (i : ℕ) : Option ℚ :=
  if i < closes.length then
    some (match delta closes i with
          | some d => max (-d) 0
          | none => 0)
  else none

/-- Rolling mean of an Option-valued series, pandas rolling(w).mean():
defined iff the window is full and contains no NaN. -/
def rollMeanO (f : ℕ → Option ℚ) (w i : ℕ) : Option ℚ :=
  if w ≤ i + 1 ∧ ((List.range w).map (fun k => f (i + 1 - w + k))).all Option.isSome then
    some ((((List.range w).map (fun k => (f (i + 1 - w + k)).getD 0)).sum) / (w : ℚ))
  else none

/-- RSI formula 100 - 100/(1 + gain/loss) with the IEEE semantics of the
pandas float division: average loss 0 with nonzero average gain gives an
infinite ratio hence exactly 100, while 0/0 is NaN (none). -/
def rsiFromAvgs (g l : ℚ) : Option ℚ :=
  if l = 0 then (if g = 0 then none else some 100) else some (100 - 100 / (1 + g / l))

/-- RSI with rolling window 14 over the gain and loss series (main.py, main3.py). -/
def rsi14 (closes : List ℚ) (i : ℕ) : Option ℚ :=
  match rollMeanO (gainS closes) 14 i, rollMeanO (lossS closes) 14 i with
  | some g, some l => rsiFromAvgs g l
  | _, _ => none

/-- RSI with rolling window 10 (main2.py). -/
def rsi10 (closes : List ℚ) (i : ℕ) : Option ℚ :=
  match rollMeanO (gainS closes) 10 i, rollMeanO (lossS closes) 10 i with
  | some g, some l => rsiFromAvgs g l
  | _, _ => none

/-- Exponentially weighted mean, pandas ewm(span, adjust := True, min_periods)
on an Option-valued series: weight (1-a)^(i-k) at absolute position k
(ignore_na defaults to False), NaN entries skipped, defined once at least
min_periods non-NaN values have been seen. -/
def ewmAdjMean (f : ℕ → Option ℚ) (a : ℚ) (minp i : ℕ) : Option ℚ :=
  let pairs := (List.range (i + 1)).filterMap
    (fun k => (f k).map (fun v => ((1 - a) ^ (i - k), v)))
  if minp ≤ pairs.length then
    some (((pairs.map (fun p => p.1 * p.2)).sum) / ((pairs.map (fun p => p.1)).sum))
  else none

/-- RSI of main_revised.py: gain and loss averaged by ewm(span := 14,
min_periods := 14), so the smoothing factor is 2/15. -/
def rsiR (closes : List ℚ) (i : ℕ) : Option ℚ :=
  match ewmAdjMean (gainS closes) (2/15) 14 i, ewmAdjMean (lossS closes) (2/15) 14 i with
  | some g, some l => rsiFromAvgs g l
  | _, _ => none

/-- Exponential moving average, pandas ewm(span, adjust := False).mean()
seeded by the first value; a is the smoothing factor 2/(span+1). -/
def ema (closes : List ℚ) (a : ℚ) : ℕ → ℚ
  | 0 => px closes 0
  | i + 1 => (1 - a) * ema closes a i + a * px closes (i + 1)

/-- Boolean comparison of a possibly-NaN value against a number, NaN gives false. -/
def oltB (o : Option ℚ) (y : ℚ) : Bool := match o with | some v => decide (v < y) | none => false

/-- Boolean comparison, o strictly above y, NaN gives false. -/
def ogtB (o : Option ℚ) (y : ℚ) : Bool := match o with | some v => decide (y < v) | none => false

/-- Boolean comparison, x at most a possibly-NaN value, NaN gives false. -/
def cleB (x : ℚ) (o : Option ℚ) : Bool := match o with | some v => decide (x ≤ v) | none => false

/-- Boolean comparison, x at least a possibly-NaN value, NaN gives false. -/
def cgeB (x : ℚ) (o : Option ℚ) : Bool := match o with | some v => decide (v ≤ x) | none => false

/-- Boolean comparison, x strictly below a possibly-NaN value, NaN gives false. -/
def cltB (x : ℚ) (o : Option ℚ) : Bool := match o with | some v => decide (x < v) | none => false

/-- Boolean comparison, x strictly above a possibly-NaN value, NaN gives false. -/
def cgtB (x : ℚ) (o : Option ℚ) : Bool := match o with | some v => decide (v < x) | none => false

/-- True range of main3.py: the pandas row-wise max over High-Low,
abs High-prevClose, abs Low-prevClose skips the NaN shift at row 0. -/
def trRange (closes highs lows : List ℚ) (i : ℕ) : Option ℚ :=
  if i < closes.length then
    some (if i = 0 then px highs 0 - px lows 0
          else max (max (px highs i - px lows i) |px highs i - px closes (i - 1)|)
                   |px lows i - px closes (i - 1)|)
  else none

/-- Average true range, rolling window 14 over the true range (main3.py). -/
def atr (closes highs lows : List ℚ) (i : ℕ) : Option ℚ :=
  rollMeanO (trRange closes highs lows) 14 i

/-- Close reasons of the trade records; main.py and main_revised.py label
each record with one of six strings, modelled by this enumeration. -/
inductive TType
  | closeLong | closeShort | stopLong | stopShort | takeLong | takeShort
deriving DecidableEq

namespace Main

/-- Trade record appended by main.py QuantTradingBot.execute_trade. -/
structure Trade where
  symbol : String
  ttype : TType
  entry_price : ℚ
  exit_price : ℚ
  profit_loss : ℚ
  lot_size : ℚ
  timestamp : ℚ
deriving DecidableEq

/-- State of main.py QuantTradingBot. -/
structure Bot where
  symbol : String
  balance : ℚ
  lot_size : ℚ
  stop_loss : ℚ
  take_profit : ℚ
  position : Int
  entry_price : ℚ
  trades : List Trade
deriving DecidableEq

/-- Constructor of main.py QuantTradingBot: plain field assignment, no validation. -/
def mkBot (symbol : String) (initial_balance lot_size stop_loss take_profit : ℚ) : Bot :=
  ⟨symbol, initial_balance, lot_size, stop_loss, take_profit, 0, 0, []⟩

/-- Entry rule of main.py should_enter_trade, rows i and i-1. -/
def should_enter_trade (closes : List ℚ) (i : ℕ) : Int :=
  match sma closes 20 i, sma closes 50 i, rsi14 closes i with
  | some s20, some s50, some r =>
    if decide (s50 < s20) && decide (s20 < px closes i) &&
        cleB (px closes (i - 1)) (sma closes 20 (i - 1)) && decide (r < 70) then 1
    else if decide (s20 < s50) && decide (px closes i < s20) &&
        cgeB (px closes (i - 1)) (sma closes 20 (i - 1)) && decide (30 < r) then -1
    else 0
  | _, _, _ => 0

/-- Exit rule of main.py should_exit_trade at row i for the given position. -/
def should_exit_trade (pos : Int) (closes : List ℚ) (i : ℕ) : Int :=
  if pos = 0 then 0
  else if pos = 1 then
    if ogtB (rsi14 closes i) 70 || cltB (px closes i) (sma closes 20 i) then 0 else pos
  else if pos = -1 then
    if oltB (rsi14 closes i) 30 || cgtB (px closes i) (sma closes 20 i) then 0 else pos
  else pos

/-- Trade execution of main.py execute_trade: open, signal close, stop or
take close at the theoretical trigger price; t is the wall-clock stamp. -/
def execute_trade (b : Bot) (t price : ℚ) (signal : Int) : Bot :=
  if b.position = 0 ∧ signal ≠ 0 then
    { b with position := signal, entry_price := price }
  else if b.position ≠ 0 ∧ signal = 0 then
    let pl := if b.position = 1 then (price - b.entry_price) * b.lot_size * 100000
              else (b.entry_price - price) * b.lot_size * 100000
    let tt := if b.position = 1 then TType.closeLong else TType.closeShort
    let rcd : Trade := ⟨b.symbol, tt, b.entry_price, price, pl, b.lot_size, t⟩
    { b with balance := b.balance + pl, trades := b.trades ++ [rcd],
             position := 0, entry_price := 0 }
  else if b.position ≠ 0 then
    let pd := if b.position = 1 then price - b.entry_price else b.entry_price - price
    if pd ≤ -b.stop_loss then
      let ex := if b.position = 1 then b.entry_price - b.stop_loss
                else b.entry_price + b.stop_loss
      let pl := if b.position = 1 then (ex - b.entry_price) * b.lot_size * 100000
                else (b.entry_price - ex) * b.lot_size * 100000
      let tt := if b.position = 1 then TType.stopLong else TType.stopShort
      let rcd : Trade := ⟨b.symbol, tt, b.entry_price, ex, pl, b.lot_size, t⟩
      { b with balance := b.balance + pl, trades := b.trades ++ [rcd],
               position := 0, entry_price := 0 }
    else if b.take_profit ≤ pd then
      let ex := if b.position = 1 then b.entry_price + b.take_profit
                else b.entry_price - b.take_profit
      let pl := if b.position = 1 then (ex - b.entry_price) * b.lot_size * 100000
                else (b.entry_price - ex) * b.lot_size * 100000
      let tt := if b.position = 1 then TType.takeLong else TType.takeShort
      let rcd : Trade := ⟨b.symbol, tt, b.entry_price, ex, pl, b.lot_size, t⟩
      { b with balance := b.balance + pl, trades := b.trades ++ [rcd],
               position := 0, entry_price := 0 }
    else b
  else b

/-- One loop iteration of main.py run at row i: exit has priority on an
open position, otherwise the entry signal is executed. -/
def step (closes : List ℚ) (clock : ℕ → ℚ) (b : Bot) (i : ℕ) : Bot :=
  let entry_signal := should_enter_trade closes i
  let exit_signal := should_exit_trade b.position closes i
  if b.position ≠ 0 then execute_trade b (clock i) (px closes i) exit_signal
  else execute_trade b (clock i) (px closes i) entry_signal

/-- Run of main.py: calculate_indicators works on a copy of the input and
the loop visits rows 1 to len-1 in order. -/
def run (b : Bot) (closes : List ℚ) (clock : ℕ → ℚ) : Bot :=
  (List.range closes.length).foldl
    (fun st i => if i = 0 then st else step closes clock st i) b

/-- Row access of one loop iteration made explicit: iloc on rows i and i-1
fails outside the series, otherwise the iteration is the total step. -/
def step_checked (closes : List ℚ) (clock : ℕ → ℚ) (b : Bot) (i : ℕ) : Option Bot :=
  match closes.get? i, closes.get? (i - 1) with
  | some _, some _ => some (step closes clock b i)
  | _, _ => none

/-- Run with explicit row-access failure, to state that a run never fails. -/
def run_checked (b : Bot) (closes : List ℚ) (clock : ℕ → ℚ) : Option Bot :=
  (List.range closes.length).foldl
    (fun ost i => ost.bind fun st => if i = 0 then some st else step_checked closes clock st i)
    (some b)

/-- Drop the wall-clock stamp of a trade record. -/
def eraseStamp (t : Trade) : Trade := { t with timestamp := 0 }

/-- Bot state up to wall-clock stamps on the ledger. -/
def strip (b : Bot) : Bot := { b with trades := b.trades.map eraseStamp }

end Main

namespace Revised

/-- Trade record appended by main_revised.py _record_trade. -/
structure Trade where
  symbol : String
  ttype : TType
  entry_price : ℚ
  exit_price : ℚ
  profit_loss : ℚ
  lot_size : ℚ
  timestamp : ℚ
deriving DecidableEq

/-- State of main_revised.py QuantTradingBot. -/
structure Bot where
  symbol : String
  balance : ℚ
  lot_size : ℚ
  stop_loss : ℚ
  take_profit : ℚ
  position : Int
  entry_price : ℚ
  trades : List Trade
deriving DecidableEq

/-- Constructor of main_revised.py QuantTradingBot: no validation. -/
def mkBot (symbol : String) (initial_balance lot_size stop_loss take_profit : ℚ) : Bot :=
  ⟨symbol, initial_balance, lot_size, stop_loss, take_profit, 0, 0, []⟩

/-- Entry rule of main_revised.py should_enter_trade: as main.py but the
RSI comes from the exponentially weighted averages. -/
def should_enter_trade (closes : List ℚ) (i : ℕ) : Int :=
  match sma closes 20 i, sma closes 50 i, rsiR closes i with
  | some s20, some s50, some r =>
    if decide (s50 < s20) && decide (s20 < px closes i) &&
        cleB (px closes (i - 1)) (sma closes 20 (i - 1)) && decide (r < 70) then 1
    else if decide (s20 < s50) && decide (px closes i < s20) &&
        cgeB (px closes (i - 1)) (sma closes 20 (i - 1)) && decide (30 < r) then -1
    else 0
  | _, _, _ => 0

/-- Exit rule of main_revised.py should_exit_trade. -/
def should_exit_trade (pos : Int) (closes : List ℚ) (i : ℕ) : Int :=
  if pos = 1 ∧ (ogtB (rsiR closes i) 70 || cltB (px closes i) (sma closes 20 i)) = true then 0
  else if pos = -1 ∧ (oltB (rsiR closes i) 30 || cgtB (px closes i) (sma closes 20 i)) = true then 0
  else pos

/-- Trade execution of main_revised.py execute_trade with _record_trade
inlined; the stop or take exit price is entry_price plus take_profit or
minus stop_loss irrespective of the position side. -/
def execute_trade (b : Bot) (t price : ℚ) (signal : Int) : Bot :=
  if b.position = 0 ∧ signal ≠ 0 then
    { b with position := signal, entry_price := price }
  else if b.position ≠ 0 ∧ signal = 0 then
    let pl := if b.position = 1 then (price - b.entry_price) * b.lot_size * 100000
              else (b.entry_price - price) * b.lot_size * 100000
    let tt := if b.position = 1 then TType.closeLong else TType.closeShort
    let rcd : Trade := ⟨b.symbol, tt, b.entry_price, price, pl, b.lot_size, t⟩
    { b with balance := b.balance + pl, trades := b.trades ++ [rcd],
             position := 0, entry_price := 0 }
  else if b.position ≠ 0 then
    let pd := if b.position = 1 then price - b.entry_price else b.entry_price - price
    if pd ≤ -b.stop_loss ∨ b.take_profit ≤ pd then
      let ex := b.entry_price + (if b.take_profit ≤ pd then b.take_profit else -b.stop_loss)
      let pl := if b.position = 1 then (ex - b.entry_price) * b.lot_size * 100000
                else (b.entry_price - ex) * b.lot_size * 100000
      let t1 := if b.take_profit ≤ pd then TType.takeLong else TType.stopLong
      let t2 := if b.position = -1 ∧ b.take_profit ≤ pd then TType.takeShort else t1
      let t3 := if b.position = -1 ∧ pd ≤ -b.stop_loss then TType.stopShort else t2
      let rcd : Trade := ⟨b.symbol, t3, b.entry_price, ex, pl, b.lot_size, t⟩
      { b with balance := b.balance + pl, trades := b.trades ++ [rcd],
               position := 0, entry_price := 0 }
    else b
  else b

/-- One loop iteration of main_revised.py run at row i. -/
def step (closes : List ℚ) (clock : ℕ → ℚ) (b : Bot) (i : ℕ) : Bot :=
  if b.position ≠ 0 then
    execute_trade b (clock i) (px closes i) (should_exit_trade b.position closes i)
  else
    execute_trade b (clock i) (px closes i) (should_enter_trade closes i)

/-- Run of main_revised.py over rows 1 to len-1. -/
def run (b : Bot) (closes : List ℚ) (clock : ℕ → ℚ) : Bot :=
  (List.range closes.length).foldl
    (fun st i => if i = 0 then st else step closes clock st i) b

/-- Row access of one loop iteration made explicit, as for main.py. -/
def step_checked (closes : List ℚ) (clock : ℕ → ℚ) (b : Bot) (i : ℕ) : Option Bot :=
  match closes.get? i, closes.get? (i - 1) with
  | some _, some _ => some (step closes clock b i)
  | _, _ => none

/-- Run with explicit row-access failure, to state that a run never fails. -/
def run_checked (b : Bot) (closes : List ℚ) (clock : ℕ → ℚ) : Option Bot :=
  (List.range closes.length).foldl
    (fun ost i => ost.bind fun st => if i = 0 then some st else step_checked closes clock st i)
    (some b)

end Revised

namespace Main2

/-- Trade record appended by main2.py execute_trade (no close-reason label). -/
structure Trade where
  symbol : String
  entry_price : ℚ
  exit_price : ℚ
  profit_loss : ℚ
  lot_size : ℚ
  timestamp : ℚ
deriving DecidableEq

/-- State of main2.py QuantTradingBot, the no-stop-loss variant: stop_loss
and take_profit are set to 0 in the constructor and never reassigned. -/
structure Bot where
  symbol : String
  balance : ℚ
  risk_per_trade : ℚ
  position : Int
  entry_price : ℚ
  stop_loss : ℚ
  take_profit : ℚ
  trades : List Trade
  lot_size : ℚ
deriving DecidableEq

/-- Constructor of main2.py QuantTradingBot: no validation, lot size 0.01. -/
def mkBot (symbol : String) (initial_balance risk_per_trade : ℚ) : Bot :=
  ⟨symbol, initial_balance, risk_per_trade, 0, 0, 0, 0, [], 1/100⟩

/-- Entry rule of main2.py should_enter_trade; also returns the lot size,
which is always the current bot lot size. -/
def should_enter_trade (b : Bot) (closes : List ℚ) (i : ℕ) : Int × ℚ :=
  match sma closes 20 i, sma closes 50 i, rsi10 closes i with
  | some s20, some s50, some r =>
    if decide (s50 < s20) && decide (s20 < px closes i) &&
        cleB (px closes (i - 1)) (sma closes 20 (i - 1)) && decide (r < 70) then (1, b.lot_size)
    else if decide (s20 < s50) && decide (px closes i < s20) &&
        cgeB (px closes (i - 1)) (sma closes 20 (i - 1)) && decide (30 < r) then (-1, b.lot_size)
    else (0, b.lot_size)
  | _, _, _ => (0, b.lot_size)

/-- Trade execution of main2.py execute_trade: open, or close as soon as
price is at least take_profit or at most stop_loss, at the actual price. -/
def execute_trade (b : Bot) (t price : ℚ) (signal : Int) (lot : ℚ) : Bot :=
  if b.position = 0 ∧ signal ≠ 0 then
    { b with position := signal, entry_price := price, lot_size := lot }
  else if b.position ≠ 0 ∧ (b.take_profit ≤ price ∨ price ≤ b.stop_loss) then
    let pl := if b.position = 1 then (price - b.entry_price) * lot * 100000
              else (b.entry_price - price) * lot * 100000
    let rcd : Trade := ⟨b.symbol, b.entry_price, price, pl, lot, t⟩
    { b with balance := b.balance + pl, trades := b.trades ++ [rcd],
             position := 0, entry_price := 0 }
  else b

/-- One loop iteration of main2.py run at row i. -/
def step (closes : List ℚ) (clock : ℕ → ℚ) (b : Bot) (i : ℕ) : Bot :=
  let e := should_enter_trade b closes i
  if b.position = 0 then execute_trade b (clock i) (px closes i) e.1 e.2
  else execute_trade b (clock i) (px closes i) b.position b.lot_size

/-- Run of main2.py over rows 1 to len-1. -/
def run (b : Bot) (closes : List ℚ) (clock : ℕ → ℚ) : Bot :=
  (List.range closes.length).foldl
    (fun st i => if i = 0 then st else step closes clock st i) b

/-- Row access of one loop iteration made explicit, as for main.py. -/
def step_checked (closes : List ℚ) (clock : ℕ → ℚ) (b : Bot) (i : ℕ) : Option Bot :=
  match closes.get? i, closes.get? (i - 1) with
  | some _, some _ => some (step closes clock b i)
  | _, _ => none

/-- Run with explicit row-access failure, to state that a run never fails. -/
def run_checked (b : Bot) (closes : List ℚ) (clock : ℕ → ℚ) : Option Bot :=
  (List.range closes.length).foldl
    (fun ost i => ost.bind fun st => if i = 0 then some st else step_checked closes clock st i)
    (some b)

end Main2

namespace Main3

/-- Trade record appended by main3.py execute_trade. -/
structure Trade where
  symbol : String
  entry_price : ℚ
  exit_price : ℚ
  profit_loss : ℚ
  lot_size : ℚ
  timestamp : ℚ
deriving DecidableEq

/-- State of main3.py AdaptiveTradingBot. -/
structure Bot where
  symbol : String
  balance : ℚ
  lot_size : ℚ
  risk_reward : ℚ
  position : Int
  entry_price : ℚ
  trades : List Trade
  contract_size : ℚ
deriving DecidableEq

/-- Constructor of main3.py AdaptiveTradingBot: no validation. -/
def mkBot (symbol : String) (initial_balance lot_size risk_reward contract_size : ℚ) : Bot :=
  ⟨symbol, initial_balance, lot_size, risk_reward, 0, 0, [], contract_size⟩

/-- Entry rule of main3.py should_enter_trade: returns the signal together
with stop_loss = 1.5 ATR and take_profit = stop_loss times the risk-reward
ratio of the CURRENT row, or the triple (0, 0, 0) when no signal fires or
an indicator is NaN.  The ewm span of the EMA is 15, so a = 1/8. -/
def should_enter_trade (b : Bot) (closes highs lows : List ℚ) (oversold overbought : ℚ)
    (i : ℕ) : Int × ℚ × ℚ :=
  match sma closes 20 i, rsi14 closes i, atr closes highs lows i with
  | some s, some r, some a =>
    let stop_loss := a * (3/2)
    let take_profit := stop_loss * b.risk_reward
    let prevR := rsi14 closes (i - 1)
    if decide (ema closes (1/8) i < s) && oltB prevR oversold &&
        (match prevR with | some pr => decide (pr < r) | none => false) then
      (1, stop_loss, take_profit)
    else if decide (s < ema closes (1/8) i) && ogtB prevR overbought &&
        (match prevR with | some pr => decide (r < pr) | none => false) then
      (-1, stop_loss, take_profit)
    else (0, 0, 0)
  | _, _, _ => (0, 0, 0)

/-- Exit rule of main3.py should_exit_trade. -/
def should_exit_trade (pos : Int) (closes : List ℚ) (i : ℕ) : Int :=
  if pos = 1 ∧ ogtB (rsi14 closes i) 70 = true then 0
  else if pos = -1 ∧ oltB (rsi14 closes i) 30 = true then 0
  else pos

/-- Trade execution of main3.py execute_trade.  Note the source behaviour:
a signal close updates the balance but appends no trade record; a stop or
take close appends a record (with the actual price as exit_price and the
profit or loss taken from the threshold) but never updates the balance,
and does not reset entry_price. -/
def execute_trade (b : Bot) (t price : ℚ) (signal : Int) (stop_loss take_profit : ℚ) : Bot :=
  if b.position = 0 ∧ signal ≠ 0 then
    { b with position := signal, entry_price := price }
  else if b.position ≠ 0 ∧ signal = 0 then
    let pl := if b.position = 1 then (price - b.entry_price) * b.lot_size * b.contract_size
              else (b.entry_price - price) * b.lot_size * b.contract_size
    { b with balance := b.balance + pl, position := 0, entry_price := 0 }
  else if b.position ≠ 0 then
    let pd := if b.position = 1 then price - b.entry_price else b.entry_price - price
    let slTrade : Trade :=
      ⟨b.symbol, b.entry_price, price, -stop_loss * b.lot_size * b.contract_size, b.lot_size, t⟩
    let tpTrade : Trade :=
      ⟨b.symbol, b.entry_price, price, take_profit * b.lot_size * b.contract_size, b.lot_size, t⟩
    if pd ≤ -stop_loss then
      { b with trades := b.trades ++ [slTrade], position := 0 }
    else if take_profit ≤ pd then
      { b with trades := b.trades ++ [tpTrade], position := 0 }
    else b
  else b

/-- One loop iteration of main3.py run at row i: the stop and take levels
passed to execute_trade are the ones returned by should_enter_trade for the
CURRENT row, not the ones in force when the position was opened. -/
def step (closes highs lows : List ℚ) (oversold overbought : ℚ) (clock : ℕ → ℚ)
    (b : Bot) (i : ℕ) : Bot :=
  let e := should_enter_trade b closes highs lows oversold overbought i
  let x := should_exit_trade b.position closes i
  if b.position ≠ 0 then execute_trade b (clock i) (px closes i) x e.2.1 e.2.2
  else execute_trade b (clock i) (px closes i) e.1 e.2.1 e.2.2

/-- Run of main3.py over rows 1 to len-1; oversold and overbought model the
output of dynamic_rsi_threshold, the seeded KMeans clustering of the RSI
history computed once before the loop. -/
def run (b : Bot) (closes highs lows : List ℚ) (oversold overbought : ℚ)
    (clock : ℕ → ℚ) : Bot :=
  (List.range closes.length).foldl
    (fun st i => if i = 0 then st else step closes highs lows oversold overbought clock st i) b

/-- Drop the wall-clock stamp of a trade record. -/
def eraseStamp (t : Trade) : Trade := { t with timestamp := 0 }

/-- Bot state up to wall-clock stamps on the ledger. -/
def strip (b : Bot) : Bot := { b with trades := b.trades.map eraseStamp }

/-- RSI history of the series: the RSI column with the NaN rows dropped,
as data RSI dropna() in dynamic_rsi_threshold of main3.py. -/
def rsiHistory (closes : List ℚ) : List ℚ :=
  (List.range closes.length).filterMap (rsi14 closes)

/-- Modelled from the spec: dynamic_rsi_threshold partitions the RSI
history into exactly 3 clusters with a fixed-seed KMeans - an external
sklearn call, represented here by the cluster oracle returning the lowest
and highest centroid - and the library call fails when the history holds
fewer samples than the 3 requested clusters. -/
def dynamic_rsi_threshold (closes : List ℚ) (cluster : List ℚ → ℚ × ℚ) : Option (ℚ × ℚ) :=
  if 3 ≤ (rsiHistory closes).length then some (cluster (rsiHistory closes)) else none

/-- Run of main3.py with the pre-loop threshold computation made explicit:
run calls dynamic_rsi_threshold once before stepping, so the run fails
exactly when that clustering call does. -/
def run_checked (b : Bot) (closes highs lows : List ℚ) (cluster : List ℚ → ℚ × ℚ)
    (clock : ℕ → ℚ) : Option Bot :=
  match dynamic_rsi_threshold closes cluster with
  | some p => some (run b closes highs lows p.1 p.2 clock)
  | none => none

end Main3

/-- Caller-visible data frame: the bars plus the list of column names. -/
structure Frame where
  closes : List ℚ
  cols : List String
deriving DecidableEq

/-- Pandas column assignment: appends the column name if it is new. -/
def addCol (cols : List String) (c : String) : List String :=
  if c ∈ cols then cols else cols ++ [c]

/-- Columns added by calculate_indicators of main.py and main_revised.py. -/
def indicatorCols (cols : List String) : List String :=
  addCol (addCol (addCol cols "SMA20") "SMA50") "RSI"

/-- Caller frame after main.py run: line 130 passes price_data.copy() to
calculate_indicators, so the caller frame is untouched. -/
def callerFrameAfterRunMain (f : Frame) : Frame := f

/-- Caller frame after main_revised.py run: line 100 passes price_data
itself, and calculate_indicators assigns the indicator columns in place. -/
def callerFrameAfterRunRevised (f : Frame) : Frame :=
  { f with cols := indicatorCols f.cols }

/-- Demo series for the adaptive variant: close declines half a point per
bar from 100, ticks up to 91 at bar 20 and back down to 90.5 at bar 21. -/
def demoCloses : List ℚ :=
  [100, 199/2, 99, 197/2, 98, 195/2, 97, 193/2, 96, 191/2,
   95, 189/2, 94, 187/2, 93, 185/2, 92, 183/2, 91, 181/2, 91, 181/2]

/-- Demo highs, one point above the close. -/
def demoHighs : List ℚ := demoCloses.map (fun c => c + 1)

/-- Demo lows, one point below the close. -/
def demoLows : List ℚ := demoCloses.map (fun c => c - 1)

/-- Demo adaptive bot with the example configuration of main3.py. -/
def demoBot3 : Main3.Bot := Main3.mkBot "EURUSD" 10000 (1/100) 2 100000

/-- Adaptive bot holding a long position entered at 100. -/
def c1Bot : Main3.Bot := ⟨"EURUSD", 10000, 1/100, 2, 1, 100, [], 100000⟩

/-- Revised bot holding a short position entered at 100, stop 5, take 10. -/
def c2Bot : Revised.Bot := ⟨"EURUSD", 10000, 1/100, 5, 10, -1, 100, []⟩

/-- Main2 bot holding a long position entered at 5 (stop and take are 0). -/
def demoBot2open : Main2.Bot := ⟨"EURUSD", 10000, 1/100, 1, 5, 0, 0, [], 1/100⟩

/-- Strictly rising 15-bar series: every delta is a gain. -/
def demoUp : List ℚ := [1, 2, 3, 4, 5, 6, 7, 8, 9, 10, 11, 12, 13, 14, 15]

/-- Folding a function that fixes b over any index list returns b. -/
theorem foldl_eq_self {α : Type} (f : α → ℕ → α) (b : α) :
    ∀ l : List ℕ, (∀ i ∈ l, f b i = b) → l.foldl f b = b := by
  intro l
  induction l with
  | nil => intro _; rfl
  | cons a l ih =>
    intro h
    have ha : f b a = b := h a (List.mem_cons_self a l)
    calc (a :: l).foldl f b = l.foldl f (f b a) := rfl
    _ = l.foldl f b := by rw [ha]
    _ = b := ih fun i hi => h i (List.mem_cons_of_mem a hi)

/-- Two folds stay related when every step preserves the relation. -/
theorem foldl_rel {α : Type} (R : α → α → Prop) (f g : α → ℕ → α)
    (hstep : ∀ a b i, R a b → R (f a i) (g b i)) :
    ∀ (l : List ℕ) (a b : α), R a b → R (l.foldl f a) (l.foldl g b) := by
  intro l
  induction l with
  | nil => intro a b h; exact h
  | cons x xs ih => intro a b h; exact ih (f a x) (g b x) (hstep a b x h)

/-- A rolling window wider than the series is never defined. -/
theorem sma_eq_none_of_short {closes : List ℚ} {w i : ℕ} (h : closes.length < w) :
    sma closes w i = none := by
  rw [sma, if_neg]
  rintro ⟨h1, h2⟩
  omega

/-- With fewer than 50 bars the main.py entry signal is always flat. -/
theorem main_enter_flat_of_short {closes : List ℚ} (h : closes.length < 50) (i : ℕ) :
    Main.should_enter_trade closes i = 0 := by
  unfold Main.should_enter_trade
  rw [sma_eq_none_of_short h]
  rcases sma closes 20 i with _ | s20 <;> rcases rsi14 closes i with _ | r <;> rfl

/-- A flat main.py bot given a flat signal is left unchanged. -/
theorem main_execute_flat {b : Main.Bot} (h : b.position = 0) (t p : ℚ) :
    Main.execute_trade b t p 0 = b := by
  unfold Main.execute_trade
  rw [if_neg (by simp), if_neg (by simp [h]), if_neg (by simp [h])]

/-- With fewer than 20 bars the main3.py entry signal is always flat. -/
theorem main3_enter_flat_of_short {closes : List ℚ} (h : closes.length < 20)
    (b : Main3.Bot) (highs lows : List ℚ) (os ob : ℚ) (i : ℕ) :
    Main3.should_enter_trade b closes highs lows os ob i = (0, 0, 0) := by
  unfold Main3.should_enter_trade
  rw [sma_eq_none_of_short h]

/-- A flat main3.py bot given a flat signal is left unchanged. -/
theorem main3_execute_flat {b : Main3.Bot} (h : b.position = 0) (t p sl tp : ℚ) :
    Main3.execute_trade b t p 0 sl tp = b := by
  unfold Main3.execute_trade
  rw [if_neg (by simp), if_neg (by simp [h]), if_neg (by simp [h])]

/-- C5: for every input series strictly shorter than the largest indicator
window of the variant (50 bars for the SMA50-based main.py, 20 bars for the
SMA20-based main3.py), a run opens no position and appends no trade: every
entry signal is flat because a required indicator is undefined at every bar,
so the final state equals the freshly constructed one. -/
theorem c5_short_series_no_trades :
    (∀ (sym : String) (bal lot sl tp : ℚ) (closes : List ℚ) (clock : ℕ → ℚ),
      closes.length < 50 →
      Main.run (Main.mkBot sym bal lot sl tp) closes clock = Main.mkBot sym bal lot sl tp) ∧
    (∀ (sym : String) (bal lot rr cs : ℚ) (closes highs lows : List ℚ) (os ob : ℚ)
      (clock : ℕ → ℚ), closes.length < 20 →
      Main3.run (Main3.mkBot sym bal lot rr cs) closes highs lows os ob clock =
        Main3.mkBot sym bal lot rr cs) := by
  constructor
  · intro sym bal lot sl tp closes clock h
    apply foldl_eq_self
    intro i _
    by_cases hi : i = 0
    · rw [if_pos hi]
    · rw [if_neg hi]
      unfold Main.step
      rw [if_neg (by simp [Main.mkBot])]
      rw [main_enter_flat_of_short h]
      exact main_execute_flat rfl _ _
  · intro sym bal lot rr cs closes highs lows os ob clock h
    apply foldl_eq_self
    intro i _
    by_cases hi : i = 0
    · rw [if_pos hi]
    · rw [if_neg hi]
      unfold Main3.step
      rw [if_neg (by simp [Main3.mkBot])]
      rw [main3_enter_flat_of_short h]
      exact main3_execute_flat rfl _ _ _ _

/-- C5 witness: a three-bar series leaves both constructed engines unchanged. -/
theorem c5_short_series_no_trades_witness :
    ((([1, 2, 3] : List ℚ).length < 50 ∧
      Main.run (Main.mkBot "EURUSD" 10000 (1/100) (1/2000) (1/1000)) [1, 2, 3] (fun _ => 0) =
        Main.mkBot "EURUSD" 10000 (1/100) (1/2000) (1/1000))) ∧
    ((([1, 2, 3] : List ℚ).length < 20 ∧
      Main3.run (Main3.mkBot "EURUSD" 10000 (1/100) 2 100000) [1, 2, 3] [2, 3, 4] [0, 1, 2]
          30 70 (fun _ => 0) =
        Main3.mkBot "EURUSD" 10000 (1/100) 2 100000)) :=
  ⟨⟨by decide,
    c5_short_series_no_trades.1 "EURUSD" 10000 (1/100) (1/2000) (1/1000) [1, 2, 3]
      (fun _ => 0) (by decide)⟩,
   ⟨by decide,
    c5_short_series_no_trades.2 "EURUSD" 10000 (1/100) 2 100000 [1, 2, 3] [2, 3, 4] [0, 1, 2]
      30 70 (fun _ => 0) (by decide)⟩⟩

unseal Rat.add Rat.mul Rat.inv Rat.sub Rat.ofScientific in
/-- C1: in main3.py a stop-loss or take-profit close appends exactly one
trade record but leaves the balance unchanged, while a signal close changes
the balance but appends no trade record, so a close does not both add its
profit or loss to the balance and append one record as the claim states.
Evaluated on an adaptive bot long at 100: price 95 with stop 3 triggers the
stop close, and the same price with exit signal 0 triggers the signal close. -/
theorem c1_main3_close_bookkeeping :
    ((Main3.execute_trade c1Bot 0 95 1 3 6).trades.length = 1 ∧
     (Main3.execute_trade c1Bot 0 95 1 3 6).balance = c1Bot.balance ∧
     (Main3.execute_trade c1Bot 0 95 1 3 6).position = 0) ∧
    ((Main3.execute_trade c1Bot 0 95 0 0 0).balance ≠ c1Bot.balance ∧
     (Main3.execute_trade c1Bot 0 95 0 0 0).trades = [] ∧
     (Main3.execute_trade c1Bot 0 95 0 0 0).position = 0) := by decide

unseal Rat.add Rat.mul Rat.inv Rat.sub Rat.ofScientific in
/-- C2: in main_revised.py a short position entered at 100 with stop 5 and
take 10 is closed at bar close 80: the take-profit rule fires, yet the
recorded exit price is entry_price + take_profit = 110 instead of the
theoretical short trigger entry_price - take_profit = 90, and the recorded
profit loss is -10000 although the label says take-profit. -/
theorem c2_revised_short_exit_price :
    (Revised.execute_trade c2Bot 0 80 (-1)).trades.map
      (fun t => (t.ttype, t.entry_price, t.exit_price, t.profit_loss)) =
      [(TType.takeShort, 100, 110, -10000)] := by decide

unseal Rat.add Rat.mul Rat.inv Rat.sub Rat.ofScientific in
/-- C3: on the demo series the adaptive engine enters long at bar 20 with
entry-time stop_loss = 1.5 x ATR = 3 and take_profit = 6, yet at bar 21,
where no entry signal fires, the run hands the current-row values (0, 0) to
the exit check, so the half-point dip to 90.5 books a stop-loss trade with
profit_loss 0; with the entry-time levels held fixed the position would
have stayed open.  The balance is also untouched by that close. -/
theorem c3_adaptive_risk_not_held_fixed :
    Main3.should_enter_trade demoBot3 demoCloses demoHighs demoLows 30 70 20 = (1, 3, 6) ∧
    Main3.should_enter_trade demoBot3 demoCloses demoHighs demoLows 30 70 21 = (0, 0, 0) ∧
    (Main3.run demoBot3 demoCloses demoHighs demoLows 30 70 (fun _ => 0)).trades.map
      (fun t => (t.entry_price, t.exit_price, t.profit_loss)) = [(91, 181/2, 0)] ∧
    (Main3.run demoBot3 demoCloses demoHighs demoLows 30 70 (fun _ => 0)).position = 0 := by decide

unseal Rat.add Rat.mul Rat.inv Rat.sub Rat.ofScientific in
/-- C7 counterexample: two runs on the identical series and configuration
differ in their ledgers because each trade record carries the wall-clock
datetime.now() stamp, modelled by the clock oracle; with clock 0 versus
clock 1 the single recorded trade differs in its timestamp field. -/
theorem c7_counterexample_timestamps :
    (Main3.run demoBot3 demoCloses demoHighs demoLows 30 70 (fun _ => 0)).trades ≠
    (Main3.run demoBot3 demoCloses demoHighs demoLows 30 70 (fun _ => 1)).trades := by decide

unseal Rat.add Rat.mul Rat.inv Rat.sub Rat.ofScientific in
/-- C8 counterexample: constructing the main.py engine with a negative lot
size does not fail - the constructor stores the value unchanged and a run
over a three-bar series completes normally, no row access failing - while
the adaptive main3.py engine, built with the valid example configuration,
fails at run time on that same three-bar series: no RSI value is defined,
so the 3-cluster KMeans call of dynamic_rsi_threshold cannot be made. -/
theorem c8_counterexample_no_validation :
    (Main.mkBot "EURUSD" 10000 (-1/100) (1/2000) (1/1000)).lot_size = -1/100 ∧
    Main.run_checked (Main.mkBot "EURUSD" 10000 (-1/100) (1/2000) (1/1000)) [1, 2, 3]
        (fun _ => 0) =
      some (Main.mkBot "EURUSD" 10000 (-1/100) (1/2000) (1/1000)) ∧
    Main3.run_checked (Main3.mkBot "EURUSD" 10000 (1/100) 2 100000) [1, 2, 3] [2, 3, 4]
        [0, 1, 2] (fun _ => (30, 70)) (fun _ => 0) = none := by decide

unseal Rat.add Rat.mul Rat.inv Rat.sub Rat.ofScientific in
/-- C9 counterexample: after a main_revised.py run the caller frame is not
the frame passed in: calculate_indicators received price_data itself (no
copy) and assigned the three indicator columns in place. -/
theorem c9_counterexample_revised_mutates :
    callerFrameAfterRunRevised ⟨[1, 2], ["Close"]⟩ ≠ (⟨[1, 2], ["Close"]⟩ : Frame) := by decide

/-- C9 amended: the main.py run leaves the caller frame unchanged because
calculate_indicators works on price_data.copy(); the main_revised.py run
keeps the bars intact but adds the columns SMA20, SMA50, RSI to the caller
frame in place. -/
theorem c9_amended_copy_semantics :
    ∀ f : Frame, callerFrameAfterRunMain f = f ∧
      (callerFrameAfterRunRevised f).closes = f.closes ∧
      (callerFrameAfterRunRevised f).cols = indicatorCols f.cols :=
  fun _ => ⟨rfl, rfl, rfl⟩

/-- Values of the gain series are nonnegative. -/
theorem gainS_nonneg {closes : List ℚ} {i : ℕ} {v : ℚ} (h : gainS closes i = some v) :
    0 ≤ v := by
  unfold gainS at h
  split_ifs at h
  rw [← Option.some_inj.mp h]
  cases hd : delta closes i
  · exact le_rfl
  · exact le_max_right _ 0

/-- Values of the loss series are nonnegative. -/
theorem lossS_nonneg {closes : List ℚ} {i : ℕ} {v : ℚ} (h : lossS closes i = some v) :
    0 ≤ v := by
  unfold lossS at h
  split_ifs at h
  rw [← Option.some_inj.mp h]
  cases hd : delta closes i
  · exact le_rfl
  · exact le_max_right _ 0

/-- A rolling mean of a nonnegative series is nonnegative. -/
theorem rollMeanO_nonneg {f : ℕ → Option ℚ} {w i : ℕ} {m : ℚ}
    (hf : ∀ k v, f k = some v → 0 ≤ v) (h : rollMeanO f w i = some m) : 0 ≤ m := by
  unfold rollMeanO at h
  split_ifs at h with hc
  · rw [← Option.some_inj.mp h]
    apply div_nonneg
    · apply List.sum_nonneg
      intro x hx
      rw [List.mem_map] at hx
      obtain ⟨k, _, rfl⟩ := hx
      rcases hfk : f (i + 1 - w + k) with _ | v
      · simp
      · simpa using hf _ v hfk
    · exact Nat.cast_nonneg w

/-- An exponentially weighted mean of a nonnegative series is nonnegative
when the weights are nonnegative. -/
theorem ewmAdjMean_nonneg {f : ℕ → Option ℚ} {a : ℚ} {minp i : ℕ} {m : ℚ}
    (ha : 0 ≤ 1 - a) (hf : ∀ k v, f k = some v → 0 ≤ v)
    (h : ewmAdjMean f a minp i = some m) : 0 ≤ m := by
  simp only [ewmAdjMean] at h
  split_ifs at h with hc
  · rw [← Option.some_inj.mp h]
    have hmem : ∀ p ∈ (List.range (i + 1)).filterMap
        (fun k => (f k).map (fun v => ((1 - a) ^ (i - k), v))), 0 ≤ p.1 ∧ 0 ≤ p.2 := by
      intro p hp
      rw [List.mem_filterMap] at hp
      obtain ⟨k, _, hk⟩ := hp
      rcases hfk : f k with _ | v
      · rw [hfk] at hk; exact absurd hk (by simp)
      · rw [hfk] at hk
        simp only [Option.map_some', Option.some_inj] at hk
        rw [← hk]
        exact ⟨pow_nonneg ha _, hf k v hfk⟩
    apply div_nonneg
    · apply List.sum_nonneg
      intro x hx
      rw [List.mem_map] at hx
      obtain ⟨p, hp, rfl⟩ := hx
      exact mul_nonneg (hmem p hp).1 (hmem p hp).2
    · apply List.sum_nonneg
      intro x hx
      rw [List.mem_map] at hx
      obtain ⟨p, hp, rfl⟩ := hx
      exact (hmem p hp).1

/-- The RSI formula stays within the closed interval 0 to 100 whenever the
averaged gain and loss are nonnegative. -/
theorem rsiFromAvgs_bounds {g l v : ℚ} (hg : 0 ≤ g) (hl : 0 ≤ l)
    (h : rsiFromAvgs g l = some v) : 0 ≤ v ∧ v ≤ 100 := by
  unfold rsiFromAvgs at h
  split_ifs at h with h1 h2
  · rw [← Option.some_inj.mp h]; norm_num
  · have hl' : 0 < l := lt_of_le_of_ne hl (Ne.symm h1)
    have hr : 0 ≤ g / l := div_nonneg hg hl'.le
    have h1le : (1:ℚ) ≤ 1 + g / l := by linarith
    have hup : 100 / (1 + g / l) ≤ 100 := div_le_self (by norm_num) h1le
    have hlo : 0 ≤ 100 / (1 + g / l) := div_nonneg (by norm_num) (by linarith)
    rw [← Option.some_inj.mp h]
    constructor <;> linarith

/-- The RSI formula gives exactly 100 when the average loss is zero and the
average gain nonzero. -/
theorem rsiFromAvgs_zero_loss {g : ℚ} (hg : g ≠ 0) : rsiFromAvgs g 0 = some 100 := by
  unfold rsiFromAvgs
  rw [if_pos rfl, if_neg hg]

/-- The RSI formula gives exactly 0 when the average gain is zero and the
average loss nonzero. -/
theorem rsiFromAvgs_zero_gain {l : ℚ} (hl : l ≠ 0) : rsiFromAvgs 0 l = some 0 := by
  unfold rsiFromAvgs
  rw [if_neg hl]
  norm_num

/-- C4: wherever the momentum oscillator is defined its value lies in the
closed interval 0 to 100, for the rolling-mean RSI of main.py and main3.py
and for the exponentially weighted RSI of main_revised.py; when the
trailing average loss is zero and the average gain positive the value is
exactly 100, and when the average gain is zero and the average loss
positive the value is exactly 0 - in both degenerate cases a defined value,
never a NaN, reaches the signal decision. -/
theorem c4_momentum_oscillator_bounds :
    (∀ closes i v, rsi14 closes i = some v → 0 ≤ v ∧ v ≤ 100) ∧
    (∀ closes i g, rollMeanO (gainS closes) 14 i = some g → 0 < g →
      rollMeanO (lossS closes) 14 i = some 0 → rsi14 closes i = some 100) ∧
    (∀ closes i l, rollMeanO (gainS closes) 14 i = some 0 →
      rollMeanO (lossS closes) 14 i = some l → 0 < l → rsi14 closes i = some 0) ∧
    (∀ closes i v, rsiR closes i = some v → 0 ≤ v ∧ v ≤ 100) ∧
    (∀ closes i g, ewmAdjMean (gainS closes) (2/15) 14 i = some g → 0 < g →
      ewmAdjMean (lossS closes) (2/15) 14 i = some 0 → rsiR closes i = some 100) ∧
    (∀ closes i l, ewmAdjMean (gainS closes) (2/15) 14 i = some 0 →
      ewmAdjMean (lossS closes) (2/15) 14 i = some l → 0 < l → rsiR closes i = some 0) := by
  refine ⟨?_, ?_, ?_, ?_, ?_, ?_⟩
  · intro closes i v h
    unfold rsi14 at h
    rcases hg : rollMeanO (gainS closes) 14 i with _ | g <;> rw [hg] at h
    · exact absurd h (by simp)
    · rcases hl : rollMeanO (lossS closes) 14 i with _ | l <;> rw [hl] at h
      · exact absurd h (by simp)
      · exact rsiFromAvgs_bounds (rollMeanO_nonneg (fun k v => gainS_nonneg) hg)
          (rollMeanO_nonneg (fun k v => lossS_nonneg) hl) h
  · intro closes i g hg hg0 hl
    unfold rsi14
    rw [hg, hl]
    exact rsiFromAvgs_zero_loss (ne_of_gt hg0)
  · intro closes i l hg hl hl0
    unfold rsi14
    rw [hg, hl]
    exact rsiFromAvgs_zero_gain (ne_of_gt hl0)
  · intro closes i v h
    unfold rsiR at h
    rcases hg : ewmAdjMean (gainS closes) (2/15) 14 i with _ | g <;> rw [hg] at h
    · exact absurd h (by simp)
    · rcases hl : ewmAdjMean (lossS closes) (2/15) 14 i with _ | l <;> rw [hl] at h
      · exact absurd h (by simp)
      · exact rsiFromAvgs_bounds
          (ewmAdjMean_nonneg (by norm_num) (fun k v => gainS_nonneg) hg)
          (ewmAdjMean_nonneg (by norm_num) (fun k v => lossS_nonneg) hl) h
  · intro closes i g hg hg0 hl
    unfold rsiR
    rw [hg, hl]
    exact rsiFromAvgs_zero_loss (ne_of_gt hg0)
  · intro closes i l hg hl hl0
    unfold rsiR
    rw [hg, hl]
    exact rsiFromAvgs_zero_gain (ne_of_gt hl0)

/-- C6: each loop iteration performs at most one state transition, in
main.py, main_revised.py and main2.py alike: from a flat state the step
either changes nothing or opens a position while leaving the ledger and
the balance untouched (so a bar that opens can never also close), and from
an open state the step either changes nothing or closes the position. -/
theorem c6_single_transition_per_bar :
    (∀ (closes : List ℚ) (clock : ℕ → ℚ) (b : Main.Bot) (i : ℕ),
      (b.position = 0 →
        Main.step closes clock b i = b ∨
        ((Main.step closes clock b i).position ≠ 0 ∧
         (Main.step closes clock b i).trades = b.trades ∧
         (Main.step closes clock b i).balance = b.balance)) ∧
      (b.position ≠ 0 →
        Main.step closes clock b i = b ∨ (Main.step closes clock b i).position = 0)) ∧
    (∀ (closes : List ℚ) (clock : ℕ → ℚ) (b : Revised.Bot) (i : ℕ),
      (b.position = 0 →
        Revised.step closes clock b i = b ∨
        ((Revised.step closes clock b i).position ≠ 0 ∧
         (Revised.step closes clock b i).trades = b.trades ∧
         (Revised.step closes clock b i).balance = b.balance)) ∧
      (b.position ≠ 0 →
        Revised.step closes clock b i = b ∨ (Revised.step closes clock b i).position = 0)) ∧
    (∀ (closes : List ℚ) (clock : ℕ → ℚ) (b : Main2.Bot) (i : ℕ),
      (b.position = 0 →
        Main2.step closes clock b i = b ∨
        ((Main2.step closes clock b i).position ≠ 0 ∧
         (Main2.step closes clock b i).trades = b.trades ∧
         (Main2.step closes clock b i).balance = b.balance)) ∧
      (b.position ≠ 0 →
        Main2.step closes clock b i = b ∨ (Main2.step closes clock b i).position = 0)) := by
  refine ⟨?_, ?_, ?_⟩
  · intro closes clock b i
    constructor
    · intro h
      simp only [Main.step]
      rw [if_neg (fun hc : b.position ≠ 0 => hc h)]
      by_cases hs : Main.should_enter_trade closes i = 0
      · left
        rw [hs]
        exact main_execute_flat h _ _
      · right
        simp only [Main.execute_trade]
        rw [if_pos ⟨h, hs⟩]
        exact ⟨hs, rfl, rfl⟩
    · intro h
      simp only [Main.step]
      rw [if_pos h]
      by_cases hs : Main.should_exit_trade b.position closes i = 0
      · right
        rw [hs]
        simp only [Main.execute_trade]
        rw [if_neg (by simp), if_pos ⟨h, by simp⟩]
      · simp only [Main.execute_trade]
        rw [if_neg (fun hc => h hc.1), if_neg (fun hc => hs hc.2), if_pos h]
        split_ifs <;> first | (left; rfl) | (right; rfl)
  · intro closes clock b i
    constructor
    · intro h
      simp only [Revised.step]
      rw [if_neg (fun hc : b.position ≠ 0 => hc h)]
      by_cases hs : Revised.should_enter_trade closes i = 0
      · left
        rw [hs]
        simp only [Revised.execute_trade]
        rw [if_neg (by simp), if_neg (by simp [h]), if_neg (by simp [h])]
      · right
        simp only [Revised.execute_trade]
        rw [if_pos ⟨h, hs⟩]
        exact ⟨hs, rfl, rfl⟩
    · intro h
      simp only [Revised.step]
      rw [if_pos h]
      by_cases hs : Revised.should_exit_trade b.position closes i = 0
      · right
        rw [hs]
        simp only [Revised.execute_trade]
        rw [if_neg (by simp), if_pos ⟨h, by simp⟩]
      · simp only [Revised.execute_trade]
        rw [if_neg (fun hc => h hc.1), if_neg (fun hc => hs hc.2), if_pos h]
        split_ifs <;> first | (left; rfl) | (right; rfl)
  · intro closes clock b i
    constructor
    · intro h
      simp only [Main2.step]
      rw [if_pos h]
      by_cases hs : (Main2.should_enter_trade b closes i).1 = 0
      · left
        rw [hs]
        simp only [Main2.execute_trade]
        rw [if_neg (by simp), if_neg (by simp [h])]
      · right
        simp only [Main2.execute_trade]
        rw [if_pos ⟨h, hs⟩]
        exact ⟨hs, rfl, rfl⟩
    · intro h
      simp only [Main2.step]
      rw [if_neg h]
      simp only [Main2.execute_trade]
      rw [if_neg (fun hc => h hc.1)]
      by_cases hx : b.take_profit ≤ px closes i ∨ px closes i ≤ b.stop_loss
      · rw [if_pos ⟨h, hx⟩]; right; rfl
      · rw [if_neg (fun hc => hx hc.2)]; left; rfl

/-- One main.py step maps equal-up-to-timestamps states to
equal-up-to-timestamps states, whatever the two clocks say: the step reads
no trade record and no timestamp, and the records it appends agree on every
field except the clock stamp. -/
theorem main_step_strip_congr (closes : List ℚ) (c1 c2 : ℕ → ℚ) (a b : Main.Bot) (i : ℕ)
    (h : Main.strip a = Main.strip b) :
    Main.strip (Main.step closes c1 a i) = Main.strip (Main.step closes c2 b i) := by
  obtain ⟨sym, bal, lot, sl, tp, pos, ep, tr1⟩ := a
  obtain ⟨sym2, bal2, lot2, sl2, tp2, pos2, ep2, tr2⟩ := b
  simp only [Main.strip, Main.Bot.mk.injEq] at h
  obtain ⟨h1, h2, h3, h4, h5, h6, h7, htr⟩ := h
  subst h1 h2 h3 h4 h5 h6 h7
  simp only [Main.step, Main.execute_trade, Main.strip]
  split_ifs <;> simp_all [Main.eraseStamp, Main.Bot.mk.injEq]

/-- The main3.py entry rule reads only the risk-reward ratio of the bot
state, so it agrees on states that share that field. -/
theorem main3_enter_only_risk (closes highs lows : List ℚ) (os ob : ℚ) (i : ℕ)
    (a b : Main3.Bot) (h : a.risk_reward = b.risk_reward) :
    Main3.should_enter_trade a closes highs lows os ob i =
    Main3.should_enter_trade b closes highs lows os ob i := by
  unfold Main3.should_enter_trade
  rw [h]

/-- One main3.py step maps equal-up-to-timestamps states to
equal-up-to-timestamps states, whatever the two clocks say. -/
theorem main3_step_strip_congr (closes highs lows : List ℚ) (os ob : ℚ) (c1 c2 : ℕ → ℚ)
    (a b : Main3.Bot) (i : ℕ) (h : Main3.strip a = Main3.strip b) :
    Main3.strip (Main3.step closes highs lows os ob c1 a i) =
    Main3.strip (Main3.step closes highs lows os ob c2 b i) := by
  obtain ⟨sym, bal, lot, rr, pos, ep, tr1, cs⟩ := a
  obtain ⟨sym2, bal2, lot2, rr2, pos2, ep2, tr2, cs2⟩ := b
  simp only [Main3.strip, Main3.Bot.mk.injEq] at h
  obtain ⟨h1, h2, h3, h4, h5, h6, htr, h8⟩ := h
  subst h1 h2 h3 h4 h5 h6 h8
  simp only [Main3.step]
  rw [main3_enter_only_risk closes highs lows os ob i
    ⟨sym, bal, lot, rr, pos, ep, tr1, cs⟩ ⟨sym, bal, lot, rr, pos, ep, tr2, cs⟩ rfl]
  simp only [Main3.execute_trade, Main3.strip]
  split_ifs <;> simp_all [Main3.eraseStamp, Main3.Bot.mk.injEq]

/-- C7 amended: running an engine twice on the identical series with the
identical configuration (for the adaptive variant, the same oversold and
overbought thresholds, as guaranteed by the fixed clustering seed) yields
final states that agree on balance, position, entry price, and on every
field of every ledger record except the wall-clock timestamp taken from
datetime.now(), modelled by the clock oracle. -/
theorem c7_deterministic_up_to_timestamps :
    (∀ (sym : String) (bal lot sl tp : ℚ) (closes : List ℚ) (c1 c2 : ℕ → ℚ),
      Main.strip (Main.run (Main.mkBot sym bal lot sl tp) closes c1) =
      Main.strip (Main.run (Main.mkBot sym bal lot sl tp) closes c2)) ∧
    (∀ (sym : String) (bal lot rr cs : ℚ) (closes highs lows : List ℚ) (os ob : ℚ)
        (c1 c2 : ℕ → ℚ),
      Main3.strip (Main3.run (Main3.mkBot sym bal lot rr cs) closes highs lows os ob c1) =
      Main3.strip (Main3.run (Main3.mkBot sym bal lot rr cs) closes highs lows os ob c2)) := by
  constructor
  · intro sym bal lot sl tp closes c1 c2
    simp only [Main.run]
    refine foldl_rel (fun a b => Main.strip a = Main.strip b) _ _ ?_ _ _ _ rfl
    intro a b i hab
    by_cases hi : i = 0
    · rw [if_pos hi, if_pos hi]; exact hab
    · rw [if_neg hi, if_neg hi]
      exact main_step_strip_congr closes c1 c2 a b i hab
  · intro sym bal lot rr cs closes highs lows os ob c1 c2
    simp only [Main3.run]
    refine foldl_rel (fun a b => Main3.strip a = Main3.strip b) _ _ ?_ _ _ _ rfl
    intro a b i hab
    by_cases hi : i = 0
    · rw [if_pos hi, if_pos hi]; exact hab
    · rw [if_neg hi, if_neg hi]
      exact main3_step_strip_congr closes highs lows os ob c1 c2 a b i hab

/-- A fold with fallible iterations agrees with the total fold when every
visited nonzero iteration succeeds on every state. -/
theorem foldl_checked_agrees {α : Type} (f : α → ℕ → α) (g : α → ℕ → Option α) :
    ∀ l : List ℕ, (∀ (b : α) (i : ℕ), i ∈ l → i ≠ 0 → g b i = some (f b i)) → ∀ b : α,
      l.foldl (fun ost i => ost.bind fun st => if i = 0 then some st else g st i) (some b) =
      some (l.foldl (fun st i => if i = 0 then st else f st i) b) := by
  intro l
  induction l with
  | nil => intro _ b; rfl
  | cons x xs ih =>
    intro h b
    have htail : ∀ (b : α) (i : ℕ), i ∈ xs → i ≠ 0 → g b i = some (f b i) :=
      fun b i hi => h b i (List.mem_cons_of_mem x hi)
    simp only [List.foldl_cons, Option.some_bind]
    by_cases hx0 : x = 0
    · rw [if_pos hx0, if_pos hx0]
      exact ih htail b
    · rw [if_neg hx0, if_neg hx0, h b x (List.mem_cons_self x xs) hx0]
      exact ih htail (f b x)

/-- The checked main.py iteration succeeds on every in-range row. -/
theorem main_step_checked_some (closes : List ℚ) (clock : ℕ → ℚ) (b : Main.Bot) (i : ℕ)
    (hi : i < closes.length) :
    Main.step_checked closes clock b i = some (Main.step closes clock b i) := by
  unfold Main.step_checked
  obtain ⟨c, hc⟩ : ∃ c, closes.get? i = some c := by
    rcases hx : closes.get? i with _ | c
    · rw [List.get?_eq_none] at hx; omega
    · exact ⟨c, rfl⟩
  obtain ⟨c', hc'⟩ : ∃ c, closes.get? (i - 1) = some c := by
    rcases hx : closes.get? (i - 1) with _ | c
    · rw [List.get?_eq_none] at hx; omega
    · exact ⟨c, rfl⟩
  rw [hc, hc']

/-- The checked main_revised.py iteration succeeds on every in-range row. -/
theorem revised_step_checked_some (closes : List ℚ) (clock : ℕ → ℚ) (b : Revised.Bot)
    (i : ℕ) (hi : i < closes.length) :
    Revised.step_checked closes clock b i = some (Revised.step closes clock b i) := by
  unfold Revised.step_checked
  obtain ⟨c, hc⟩ : ∃ c, closes.get? i = some c := by
    rcases hx : closes.get? i with _ | c
    · rw [List.get?_eq_none] at hx; omega
    · exact ⟨c, rfl⟩
  obtain ⟨c', hc'⟩ : ∃ c, closes.get? (i - 1) = some c := by
    rcases hx : closes.get? (i - 1) with _ | c
    · rw [List.get?_eq_none] at hx; omega
    · exact ⟨c, rfl⟩
  rw [hc, hc']

/-- The checked main2.py iteration succeeds on every in-range row. -/
theorem main2_step_checked_some (closes : List ℚ) (clock : ℕ → ℚ) (b : Main2.Bot)
    (i : ℕ) (hi : i < closes.length) :
    Main2.step_checked closes clock b i = some (Main2.step closes clock b i) := by
  unfold Main2.step_checked
  obtain ⟨c, hc⟩ : ∃ c, closes.get? i = some c := by
    rcases hx : closes.get? i with _ | c
    · rw [List.get?_eq_none] at hx; omega
    · exact ⟨c, rfl⟩
  obtain ⟨c', hc'⟩ : ∃ c, closes.get? (i - 1) = some c := by
    rcases hx : closes.get? (i - 1) with _ | c
    · rw [List.get?_eq_none] at hx; omega
    · exact ⟨c, rfl⟩
  rw [hc, hc']

/-- With at most 13 bars the window-14 RSI is undefined at every row: the
gain window cannot fit inside the series. -/
theorem rsi14_eq_none_of_short {closes : List ℚ} (h : closes.length ≤ 13) (i : ℕ) :
    rsi14 closes i = none := by
  have hg : rollMeanO (gainS closes) 14 i = none := by
    unfold rollMeanO
    rw [if_neg]
    rintro ⟨h1, h2⟩
    have h13 : (13 : ℕ) ∈ List.range 14 := by decide
    have hmem : gainS closes (i + 1 - 14 + 13) ∈
        (List.range 14).map (fun k => gainS closes (i + 1 - 14 + k)) :=
      List.mem_map_of_mem (fun k => gainS closes (i + 1 - 14 + k)) h13
    have hsome := List.all_eq_true.mp h2 _ hmem
    have hidx : i + 1 - 14 + 13 = i := by omega
    rw [hidx] at hsome
    have hnone : gainS closes i = none := by
      unfold gainS
      rw [if_neg (by omega)]
    rw [hnone] at hsome
    simp at hsome
  unfold rsi14
  rw [hg]

/-- With at most 13 bars the RSI history of main3.py is empty. -/
theorem main3_rsiHistory_nil {closes : List ℚ} (h : closes.length ≤ 13) :
    Main3.rsiHistory closes = [] := by
  unfold Main3.rsiHistory
  rw [List.filterMap_eq_nil_iff]
  intro i _
  exact rsi14_eq_none_of_short h i

/-- C8 amended: construction performs no validation and never fails - all
four constructors accept any parameter values, non-positive ones included,
and store them unchanged - and runtime bar processing never fails in the
three fixed-risk variants: every row access of a run is in bounds, so the
checked run always returns the total run.  The adaptive variant instead
fails before its stepping loop exactly when the RSI history holds fewer
than 3 defined values, in particular on every series of at most 13 bars,
because the 3-cluster threshold call cannot then be made; otherwise its
run completes with the thresholds computed once from that history. -/
theorem c8_no_validation_total_runs :
    (∀ (sym : String) (bal lot sl tp : ℚ),
      Main.mkBot sym bal lot sl tp =
        { symbol := sym, balance := bal, lot_size := lot, stop_loss := sl,
          take_profit := tp, position := 0, entry_price := 0, trades := [] }) ∧
    (∀ (sym : String) (bal lot sl tp : ℚ),
      Revised.mkBot sym bal lot sl tp =
        { symbol := sym, balance := bal, lot_size := lot, stop_loss := sl,
          take_profit := tp, position := 0, entry_price := 0, trades := [] }) ∧
    (∀ (sym : String) (bal rpt : ℚ),
      Main2.mkBot sym bal rpt =
        { symbol := sym, balance := bal, risk_per_trade := rpt, position := 0,
          entry_price := 0, stop_loss := 0, take_profit := 0, trades := [],
          lot_size := 1/100 }) ∧
    (∀ (sym : String) (bal lot rr cs : ℚ),
      Main3.mkBot sym bal lot rr cs =
        { symbol := sym, balance := bal, lot_size := lot, risk_reward := rr,
          position := 0, entry_price := 0, trades := [], contract_size := cs }) ∧
    (∀ (b : Main.Bot) (closes : List ℚ) (clock : ℕ → ℚ),
      Main.run_checked b closes clock = some (Main.run b closes clock)) ∧
    (∀ (b : Revised.Bot) (closes : List ℚ) (clock : ℕ → ℚ),
      Revised.run_checked b closes clock = some (Revised.run b closes clock)) ∧
    (∀ (b : Main2.Bot) (closes : List ℚ) (clock : ℕ → ℚ),
      Main2.run_checked b closes clock = some (Main2.run b closes clock)) ∧
    (∀ (b : Main3.Bot) (closes highs lows : List ℚ) (cluster : List ℚ → ℚ × ℚ)
        (clock : ℕ → ℚ),
      Main3.run_checked b closes highs lows cluster clock =
        if 3 ≤ (Main3.rsiHistory closes).length then
          some (Main3.run b closes highs lows (cluster (Main3.rsiHistory closes)).1
            (cluster (Main3.rsiHistory closes)).2 clock)
        else none) ∧
    (∀ (b : Main3.Bot) (closes highs lows : List ℚ) (cluster : List ℚ → ℚ × ℚ)
        (clock : ℕ → ℚ), closes.length ≤ 13 →
      Main3.run_checked b closes highs lows cluster clock = none) := by
  refine ⟨fun _ _ _ _ _ => rfl, fun _ _ _ _ _ => rfl, fun _ _ _ => rfl,
    fun _ _ _ _ _ => rfl, ?_, ?_, ?_, ?_, ?_⟩
  · intro b closes clock
    simp only [Main.run, Main.run_checked]
    exact foldl_checked_agrees (Main.step closes clock) (Main.step_checked closes clock)
      (List.range closes.length)
      (fun b i hi _ => main_step_checked_some closes clock b i (List.mem_range.mp hi)) b
  · intro b closes clock
    simp only [Revised.run, Revised.run_checked]
    exact foldl_checked_agrees (Revised.step closes clock) (Revised.step_checked closes clock)
      (List.range closes.length)
      (fun b i hi _ => revised_step_checked_some closes clock b i (List.mem_range.mp hi)) b
  · intro b closes clock
    simp only [Main2.run, Main2.run_checked]
    exact foldl_checked_agrees (Main2.step closes clock) (Main2.step_checked closes clock)
      (List.range closes.length)
      (fun b i hi _ => main2_step_checked_some closes clock b i (List.mem_range.mp hi)) b
  · intro b closes highs lows cluster clock
    unfold Main3.run_checked Main3.dynamic_rsi_threshold
    split_ifs <;> rfl
  · intro b closes highs lows cluster clock hlen
    unfold Main3.run_checked Main3.dynamic_rsi_threshold
    rw [main3_rsiHistory_nil hlen, if_neg (by simp)]

/-- C8 witness: the three-bar series holds at most 13 bars, and on it the
checked adaptive run fails, while on a concrete negative-lot fixed-risk
engine the witness of the counterexample already exercises the total run. -/
theorem c8_no_validation_witness :
    (([1, 2, 3] : List ℚ).length ≤ 13) ∧
    Main3.run_checked (Main3.mkBot "EURUSD" 10000 (1/100) 2 100000) [1, 2, 3] [2, 3, 4]
        [0, 1, 2] (fun _ => (30, 70)) (fun _ => 0) = none :=
  ⟨by decide,
   c8_no_validation_total_runs.2.2.2.2.2.2.2.2
     (Main3.mkBot "EURUSD" 10000 (1/100) 2 100000) [1, 2, 3] [2, 3, 4] [0, 1, 2]
     (fun _ => (30, 70)) (fun _ => 0) (by decide)⟩

/-- C10: in main2.py the constructor sets stop_loss and take_profit to 0,
no step ever changes them, and whenever a position is open at a processed
bar whose close is positive, the exit condition close at least take_profit
holds, so the step closes the position at that actual close price and
appends the corresponding trade record. -/
theorem c10_no_stop_loss_closes_next_bar :
    (∀ (sym : String) (bal rpt : ℚ),
      (Main2.mkBot sym bal rpt).stop_loss = 0 ∧ (Main2.mkBot sym bal rpt).take_profit = 0) ∧
    (∀ (closes : List ℚ) (clock : ℕ → ℚ) (b : Main2.Bot) (i : ℕ),
      (Main2.step closes clock b i).stop_loss = b.stop_loss ∧
      (Main2.step closes clock b i).take_profit = b.take_profit) ∧
    (∀ (closes : List ℚ) (clock : ℕ → ℚ) (b : Main2.Bot) (i : ℕ),
      b.position ≠ 0 → b.stop_loss = 0 → b.take_profit = 0 → 0 < px closes i →
      (Main2.step closes clock b i).position = 0 ∧
      (Main2.step closes clock b i).trades = b.trades ++
        [⟨b.symbol, b.entry_price, px closes i,
          if b.position = 1 then (px closes i - b.entry_price) * b.lot_size * 100000
          else (b.entry_price - px closes i) * b.lot_size * 100000, b.lot_size, clock i⟩]) := by
  refine ⟨fun sym bal rpt => ⟨rfl, rfl⟩, ?_, ?_⟩
  · intro closes clock b i
    constructor <;>
      (simp only [Main2.step, Main2.execute_trade]; split_ifs <;> rfl)
  · intro closes clock b i h hsl htp hpx
    simp only [Main2.step]
    rw [if_neg h]
    simp only [Main2.execute_trade]
    rw [if_neg (fun hc => h hc.1), if_pos ⟨h, Or.inl (by rw [htp]; exact hpx.le)⟩]
    exact ⟨rfl, rfl⟩

unseal Rat.add Rat.mul Rat.inv Rat.sub Rat.ofScientific in
/-- C10 witness: a bot long at 5 with zero levels is closed by the step at
bar 1 of the series 4, 6 at the actual close 6, booking 1000. -/
theorem c10_no_stop_loss_witness :
    demoBot2open.position ≠ 0 ∧ demoBot2open.stop_loss = 0 ∧ demoBot2open.take_profit = 0 ∧
    0 < px [4, 6] 1 ∧
    (Main2.step [4, 6] (fun _ => 0) demoBot2open 1).position = 0 ∧
    (Main2.step [4, 6] (fun _ => 0) demoBot2open 1).trades.map
      (fun t => (t.entry_price, t.exit_price, t.profit_loss)) = [(5, 6, 1000)] := by
  have h := c10_no_stop_loss_closes_next_bar.2.2 [4, 6] (fun _ => 0) demoBot2open 1
    (by decide) rfl rfl (by decide)
  exact ⟨by decide, rfl, rfl, by decide, h.1, by rw [h.2]; decide⟩

unseal Rat.add Rat.mul Rat.inv Rat.sub Rat.ofScientific in
/-- C4 witness: on the strictly rising 15-bar series the average loss is
zero and the average gain positive at bar 14, for the rolling and for the
exponentially weighted averages (where the coerced zero of row 0 pulls the
weighted gain average just below 1), and both oscillators evaluate to 100. -/
theorem c4_momentum_oscillator_witness :
    rollMeanO (gainS demoUp) 14 14 = some 1 ∧ (0:ℚ) < 1 ∧
    rollMeanO (lossS demoUp) 14 14 = some 0 ∧ rsi14 demoUp 14 = some 100 ∧
    ewmAdjMean (gainS demoUp) (2/15) 14 14 =
      some (189416622297685020/193353998683384309) ∧
    ewmAdjMean (lossS demoUp) (2/15) 14 14 = some 0 ∧ rsiR demoUp 14 = some 100 := by
  have hg : rollMeanO (gainS demoUp) 14 14 = some 1 := by decide
  have hl : rollMeanO (lossS demoUp) 14 14 = some 0 := by decide
  have hge : ewmAdjMean (gainS demoUp) (2/15) 14 14 =
      some (189416622297685020/193353998683384309) := by decide
  have hle : ewmAdjMean (lossS demoUp) (2/15) 14 14 = some 0 := by decide
  exact ⟨hg, by norm_num, hl,
    c4_momentum_oscillator_bounds.2.1 demoUp 14 1 hg (by norm_num) hl,
    hge, hle,
    c4_momentum_oscillator_bounds.2.2.2.2.1 demoUp 14 _ hge (by norm_num) hle⟩

/-- C6 witness: the freshly built main.py bot is flat and the step at bar 1
of a two-bar series either leaves it unchanged or opens without touching
ledger or balance. -/
theorem c6_single_transition_witness :
    (Main.mkBot "EURUSD" 10000 (1/100) (1/2000) (1/1000)).position = 0 ∧
    (Main.step [1, 2] (fun _ => 0) (Main.mkBot "EURUSD" 10000 (1/100) (1/2000) (1/1000)) 1 =
        Main.mkBot "EURUSD" 10000 (1/100) (1/2000) (1/1000) ∨
      ((Main.step [1, 2] (fun _ => 0)
          (Main.mkBot "EURUSD" 10000 (1/100) (1/2000) (1/1000)) 1).position ≠ 0 ∧
       (Main.step [1, 2] (fun _ => 0)
          (Main.mkBot "EURUSD" 10000 (1/100) (1/2000) (1/1000)) 1).trades =
         (Main.mkBot "EURUSD" 10000 (1/100) (1/2000) (1/1000)).trades ∧
       (Main.step [1, 2] (fun _ => 0)
          (Main.mkBot "EURUSD" 10000 (1/100) (1/2000) (1/1000)) 1).balance =
         (Main.mkBot "EURUSD" 10000 (1/100) (1/2000) (1/1000)).balance)) :=
  ⟨rfl, (c6_single_transition_per_bar.1 [1, 2] (fun _ => 0)
    (Main.mkBot "EURUSD" 10000 (1/100) (1/2000) (1/1000)) 1).1 rfl⟩
